import Mathlib

/-!
Shallow embedding of the hiring-assistant conversation engine
(src/chatbot/conversation_manager.py), its encryption handler
(src/security/encryption_handler.py) and its database layer
(src/database/database_manager.py), together with theorems checking the
specification claims against the embedded code.

External collaborators are modelled as parameters:
the field-verification services (email, phone, geocoding) and the
completion service are fields of an `Env` record; the Fernet symmetric
cipher from the `cryptography` package is a `FernetCipher` record whose
library-guaranteed properties are stated as explicit hypotheses.
Prompt templates from prompts_manager.py are modelled as an inductive
`Prompt` carrying the template identity and its parameters, since the
engine only ever forwards a template instance to the completion service.
-/

namespace HiringAssistant

/-- The whitespace characters stripped by Python `str.strip()`. -/
def pyIsSpace (c : Char) : Bool :=
  c = ' ' || c = '\t' || c = '\n' || c = '\x0d' || c = '\x0b' || c = '\x0c'

/-- Python `str.strip()` (whitespace trim on both sides). -/
def pyStrip (s : String) : String :=
  String.mk (((s.toList.dropWhile pyIsSpace).reverse.dropWhile pyIsSpace).reverse)

/-- ASCII lowercasing of one character (the lexicons compared against are
ASCII). -/
def pyCharLower (c : Char) : Char :=
  if 'A' ≤ c ∧ c ≤ 'Z' then Char.ofNat (c.toNat + 32) else c

/-- Python `str.lower()`. -/
def pyLower (s : String) : String := String.mk (s.toList.map pyCharLower)

/-- Containment of one character list in another, used for the Python
`needle in haystack` substring test. -/
def listContainsSub (needle : List Char) : List Char → Bool
  | [] => needle.isEmpty
  | c :: rest => needle.isPrefixOf (c :: rest) || listContainsSub needle rest

/-- Python `needle in haystack` on strings. -/
def pyContains (haystack needle : String) : Bool :=
  listContainsSub needle.toList haystack.toList

/-- Value of a nonempty all-digit character list. -/
def digitsVal (cs : List Char) : Option Nat :=
  if cs ≠ [] ∧ cs.all Char.isDigit then
    some (cs.foldl (fun a c => a * 10 + (c.toNat - 48)) 0)
  else
    none

/-- Python `int(s)` on a string: optional surrounding whitespace, optional
sign, decimal digits; `none` models the `ValueError`. -/
def pyInt (s : String) : Option Int :=
  match (pyStrip s).toList with
  | '-' :: rest => (digitsVal rest).map (fun n => -(n : Int))
  | '+' :: rest => (digitsVal rest).map (fun n => (n : Int))
  | cs => (digitsVal cs).map (fun n => (n : Int))

/-- Python dict lookup `d.get(k)` for string-keyed association lists. -/
def dget {α : Type} : List (String × α) → String → Option α
  | [], _ => none
  | (k', v') :: rest, k => if k' = k then some v' else dget rest k

/-- Python dict lookup with default `d.get(k, dflt)`. -/
def dgetD {α : Type} (d : List (String × α)) (k : String) (dflt : α) : α :=
  (dget d k).getD dflt

/-- Python dict assignment `d[k] = v`: replaces in place or appends. -/
def dset {α : Type} : List (String × α) → String → α → List (String × α)
  | [], k, v => [(k, v)]
  | (k', v') :: rest, k, v =>
    if k' = k then (k, v) :: rest else (k', v') :: dset rest k v

/-- Python list indexing with an out-of-range default (the engine only
indexes in range). -/
def pyIndexD (l : List String) (i : Nat) : String := (l.get? i).getD ""

/-- JSON values, as produced by `json.loads` on the completion reply. -/
inductive Json where
  | null : Json
  | bool (b : Bool) : Json
  | num (n : Int) : Json
  | str (s : String) : Json
  | arr (elems : List Json) : Json
  | obj (fields : List (String × Json)) : Json

/-- The check `isinstance(parsed, list) and all(isinstance(x, str) for x in
parsed)` together with extraction of the strings. -/
def Json.asStringArray : Json → Option (List String)
  | .arr elems =>
    elems.foldr
      (fun e acc =>
        match e, acc with
        | .str s, some l => some (s :: l)
        | _, _ => none)
      (some [])
  | _ => none

/-- One prompt-template instance from prompts_manager.py: the template
identity plus the parameters interpolated into it. -/
inductive Prompt where
  | greeting : Prompt
  | fallback (user_input current_context : String) : Prompt
  | validation_error (field_name : String) : Prompt
  | information_gathering (field_name : String) : Prompt
  | transition (tech_stack : String) (experience_years : Int) : Prompt
  | question_generation (tech_stack : String) (experience_years : Int) : Prompt
  | acknowledgement (user_response field_name : String) : Prompt
  | end_conversation : Prompt
  | graceful_exit : Prompt
deriving DecidableEq, Repr

/-- A recorded technical question/answer pair (`{"question": ..,
"answer": ..}`). -/
structure QAEntry where
  question : String
  answer : String
deriving DecidableEq, Repr

/-- The symmetric cipher primitive from `cryptography.fernet.Fernet`:
`enc` is `Fernet.encrypt` (base64 token as a string) and `dec` is
`Fernet.decrypt`, with `none` modelling `InvalidToken`. -/
structure FernetCipher where
  enc : String → String
  dec : String → Option String

/-- Library-guaranteed behaviour of Fernet: decryption inverts encryption,
a token is never the empty string, and a token never equals a nonempty
plaintext (tokens are versioned, HMAC-carrying base64 blobs). -/
structure FernetContract (c : FernetCipher) : Prop where
  round_trip : ∀ s, c.dec (c.enc s) = some s
  token_ne_empty : ∀ s, c.enc s ≠ ""
  token_ne_plain : ∀ s, s ≠ "" → c.enc s ≠ s

/-- EncryptionManager.encrypt: empty/absent plaintext maps to the empty
string, otherwise the Fernet token. -/
def EncryptionManager.encrypt (c : FernetCipher) (text : String) : String :=
  if text = "" then "" else c.enc text

/-- EncryptionManager.decrypt: empty input maps to the empty string; an
invalid token raises `ValueError` (modelled as `Except.error`). -/
def EncryptionManager.decrypt (c : FernetCipher) (encrypted_text : String) :
    Except String String :=
  if encrypted_text = "" then .ok ""
  else
    match c.dec encrypted_text with
    | some plain => .ok plain
    | none => .error "Invalid or corrupted encrypted text. Decryption failed."

/-- A concrete cipher satisfying the Fernet contract, used to witness the
satisfiability of the contract hypotheses. -/
def tagCipher : FernetCipher where
  enc s := String.mk ('!' :: s.toList)
  dec t :=
    match t.toList with
    | '!' :: rest => some (String.mk rest)
    | _ => none

theorem tagCipher_contract : FernetContract tagCipher := by
  refine ⟨?_, ?_, ?_⟩
  · intro s
    cases s with
    | mk data => rfl
  · intro s h
    have hlist : (tagCipher.enc s).toList = '!' :: s.toList := rfl
    rw [h] at hlist
    exact absurd (congrArg List.length hlist) (by simp)
  · intro s hs h
    have hlen : (tagCipher.enc s).toList = '!' :: s.toList := rfl
    rw [h] at hlen
    exact absurd (congrArg List.length hlen) (by simp)

/-- Backslash and double-quote escaping performed by `json.dumps` on a
string (control-character escaping is not exercised by the claims). -/
def jsonEscapeChar (c : Char) : String :=
  if c = '"' ∨ c = '\\' then String.mk ['\\', c] else String.mk [c]

/-- A JSON string literal as emitted by `json.dumps`. -/
def jsonQuote (s : String) : String :=
  "\"" ++ String.join (s.toList.map jsonEscapeChar) ++ "\""

/-- `json.dumps` of one `{"question": .., "answer": ..}` object. -/
def dumpsQAEntry (e : QAEntry) : String :=
  "\x7b" ++ jsonQuote "question" ++ ": " ++ jsonQuote e.question ++ ", " ++
    jsonQuote "answer" ++ ": " ++ jsonQuote e.answer ++ "\x7d"

/-- `json.dumps` of the technical-responses dict. -/
def dumpsTechnicalResponses (tr : List (String × QAEntry)) : String :=
  "\x7b" ++
    String.intercalate ", "
      (tr.map (fun kv => jsonQuote kv.1 ++ ": " ++ dumpsQAEntry kv.2)) ++
    "\x7d"

/-- `json.dumps` of the candidate-data dict. -/
def dumpsCandidateData (cd : List (String × String)) : String :=
  "\x7b" ++
    String.intercalate ", "
      (cd.map (fun kv => jsonQuote kv.1 ++ ": " ++ jsonQuote kv.2)) ++
    "\x7d"

/-- `json.dumps` of the archive payload
`{"candidate": .., "technical_responses": ..}`. -/
def dumpsPayload (cd : List (String × String)) (tr : List (String × QAEntry)) :
    String :=
  "\x7b" ++ jsonQuote "candidate" ++ ": " ++ dumpsCandidateData cd ++ ", " ++
    jsonQuote "technical_responses" ++ ": " ++ dumpsTechnicalResponses tr ++
    "\x7d"

/-- One row of the `candidates` table written by
DatabaseManager.save_candidate. -/
structure CandidateRow where
  date_time : String
  name : String
  phone_number : String
  email : String
  current_location : String
  experience_years : Int
  desired_positions : String
  tech_stack : String
  technical_responses_json : String
deriving DecidableEq, Repr

/-- `int(candidate_data.get("experience_years", 0))` as evaluated inside
save_candidate: the default is already an int, a present value is parsed. -/
def saveYears (candidate_data : List (String × String)) : Option Int :=
  match dget candidate_data "experience_years" with
  | none => some 0
  | some v => pyInt v

/-- DatabaseManager.save_candidate: encrypts phone/email/location with the
shared Fernet key, keeps the other fields as given, serializes the
technical responses, and wraps any failure (the `int()` parse) into a
RuntimeError, modelled as `Except.error`. -/
def DatabaseManager.save_candidate (cipher : FernetCipher) (now : String)
    (candidate_data : List (String × String))
    (technical_responses : List (String × QAEntry)) :
    Except String CandidateRow :=
  let encrypted_phone :=
    EncryptionManager.encrypt cipher (dgetD candidate_data "phone_number" "")
  let encrypted_email :=
    EncryptionManager.encrypt cipher (dgetD candidate_data "email" "")
  let encrypted_location :=
    EncryptionManager.encrypt cipher
      (dgetD candidate_data "current_location" "")
  match saveYears candidate_data with
  | none => .error "Error saving candidate: invalid experience_years"
  | some years =>
    .ok
      { date_time := now
        name := dgetD candidate_data "name" ""
        phone_number := encrypted_phone
        email := encrypted_email
        current_location := encrypted_location
        experience_years := years
        desired_positions := dgetD candidate_data "desired_positions" ""
        tech_stack := dgetD candidate_data "tech_stack" ""
        technical_responses_json :=
          dumpsTechnicalResponses technical_responses }

/-- The conversation states of ConversationState. -/
inductive ConversationState where
  | greeting : ConversationState
  | collecting_info : ConversationState
  | tech_transition : ConversationState
  | technical_questions : ConversationState
  | ended : ConversationState
  | closed : ConversationState
deriving DecidableEq, Repr

/-- The mutable fields of a ConversationManager instance. -/
structure ManagerState where
  state : ConversationState
  candidate_data : List (String × String)
  technical_responses : List (String × QAEntry)
  current_questions : List String
  current_question_index : Nat
  current_field_index : Nat
  awaiting_field : Option String
deriving DecidableEq, Repr

/-- The manager right after `__init__`. -/
def initialManagerState : ManagerState where
  state := .greeting
  candidate_data := []
  technical_responses := []
  current_questions := []
  current_question_index := 0
  current_field_index := 0
  awaiting_field := none

/-- `self.info_fields`. -/
def info_fields : List String :=
  ["name", "email", "phone_number", "current_location",
   "experience_years", "desired_positions", "tech_stack"]

/-- `ConversationManager.EXIT_KEYWORDS`. -/
def EXIT_KEYWORDS : List String :=
  ["quit", "exit", "bye", "goodbye", "stop", "cancel", "end"]

/-- `reveal_terms` of `_is_reveal_request`. -/
def reveal_terms : List String :=
  ["reveal", "answers", "answer key", "solution", "solutions",
   "show me the answers", "give me the answer", "cheat", "key"]

/-- `_is_exit_keyword`. -/
def is_exit_keyword (user_input : String) : Bool :=
  if user_input = "" then false
  else EXIT_KEYWORDS.any (fun k => pyContains (pyLower user_input) k)

/-- `_is_reveal_request`. -/
def is_reveal_request (user_input : String) : Bool :=
  if user_input = "" then false
  else reveal_terms.any (fun term => pyContains (pyLower user_input) term)

/-- `_is_unwanted_behavior`. -/
def is_unwanted_behavior (user_input : String) : Bool :=
  user_input = "" || pyStrip user_input = ""

/-- Python falsiness of `self.awaiting_field` (`None` or `""`). -/
def awaitingFalsy : Option String → Bool
  | none => true
  | some s => s = ""

/-- The external collaborators as injected capabilities: the three field
verifiers of data_validator.py, the completion service replies (`ai` for
the conversational prompts of `_get_ai_response`, `completion_json` for the
already-JSON-decoded question-generation reply, `none` modelling
`json.JSONDecodeError`), the shared Fernet cipher, and the wall clock. -/
structure Env where
  validate_email : String → Bool
  validate_phone : String → Bool
  validate_location : String → Bool
  ai : Prompt → String
  completion_json : Prompt → Option Json
  cipher : FernetCipher
  now : String

/-- One archive record appended by `_save_candidate_data` to the local
JSONL audit file. -/
structure ArchiveRecord where
  timestamp : String
  plain_candidate : List (String × String)
  plain_technical : List (String × QAEntry)
  encrypted_fields : List (String × String)
  encrypted_blob : String
deriving DecidableEq, Repr

/-- Result of one `process_message` call: the manager state afterwards, the
returned `(assistant_message, finished_flag)`, the arguments of every
attempted `DatabaseManager.save_candidate` call, the archive records
appended, and the prompts sent through `_get_ai_response` in order. -/
structure StepResult where
  st : ManagerState
  message : String
  finished : Bool
  db_saves : List (List (String × String) × List (String × QAEntry))
  archive : List ArchiveRecord
  prompts : List Prompt
deriving DecidableEq, Repr

/-- `_validate_and_store_field`: returns the updated candidate dict on
success and `none` on validation failure (the Python method mutates
`self.candidate_data` and returns a bool). -/
def validate_and_store_field (env : Env) (candidate_data : List (String × String))
    (field_name value : String) : Option (List (String × String)) :=
  let value := pyStrip value
  if field_name = "email" then
    if env.validate_email value then some (dset candidate_data field_name value)
    else none
  else if field_name = "phone_number" then
    if env.validate_phone value then some (dset candidate_data field_name value)
    else none
  else if field_name = "current_location" then
    if env.validate_location value then
      some (dset candidate_data field_name value)
    else none
  else if field_name = "experience_years" then
    match pyInt value with
    | none => none
    | some years =>
      if 0 ≤ years ∧ years ≤ 50 then
        some (dset candidate_data field_name (toString years))
      else none
  else
    if value = "" then none else some (dset candidate_data field_name value)

/-- `_save_candidate_data`: skipped entirely when both dicts are empty;
otherwise one `DatabaseManager.save_candidate` attempt (its own failure is
swallowed) plus one archive append. -/
def save_candidate_data (env : Env) (st : ManagerState) :
    List (List (String × String) × List (String × QAEntry)) × List ArchiveRecord :=
  if st.candidate_data = [] ∧ st.technical_responses = [] then ([], [])
  else
    let encrypted_fields :=
      st.candidate_data.map
        (fun kv => (kv.1, EncryptionManager.encrypt env.cipher kv.2))
    let encrypted_blob :=
      EncryptionManager.encrypt env.cipher
        (dumpsPayload st.candidate_data st.technical_responses)
    ([(st.candidate_data, st.technical_responses)],
     [{ timestamp := env.now
        plain_candidate := st.candidate_data
        plain_technical := st.technical_responses
        encrypted_fields := encrypted_fields
        encrypted_blob := encrypted_blob }])

/-- `_generate_technical_questions`: requires the completion reply to be a
JSON array of strings with length in [3,5]; every other outcome raises
(`Except.error`). -/
def generate_technical_questions (env : Env) (tech_stack : String)
    (experience_years : Int) : Except String (List String) :=
  let prompt := Prompt.question_generation tech_stack experience_years
  match env.completion_json prompt with
  | none => .error "Failed to parse LLM output as JSON"
  | some parsed =>
    match parsed.asStringArray with
    | none => .error "LLM response was not a JSON array of strings."
    | some qs =>
      if 3 ≤ qs.length ∧ qs.length ≤ 5 then .ok qs
      else .error "LLM did not return 3-5 questions as required."

/-- `_handle_greeting`. -/
def handle_greeting (env : Env) (st : ManagerState) : StepResult :=
  let st' : ManagerState :=
    { st with
      state := .collecting_info
      current_field_index := 0
      awaiting_field := some (pyIndexD info_fields 0) }
  { st := st', message := env.ai .greeting, finished := false,
    db_saves := [], archive := [], prompts := [.greeting] }

/-- `int(self.candidate_data.get("experience_years", "0"))` as used in the
transition branch of `_handle_info_collection`; `none` is an uncaught
`ValueError`. -/
def transitionYears (candidate_data : List (String × String)) : Option Int :=
  pyInt (dgetD candidate_data "experience_years" "0")

/-- `_handle_info_collection`: validate the utterance against the awaiting
field; on success store it and advance (possibly into `TECH_TRANSITION`),
on failure emit the validation-error prompt and change nothing. The
`Except.error` case is the uncaught `ValueError` of the transition-branch
`int()` call, unreachable for data stored through validation. -/
def handle_info_collection (env : Env) (st : ManagerState) (user_input : String) :
    Except String StepResult :=
  let st :=
    if awaitingFalsy st.awaiting_field then
      { st with current_field_index := 0,
                awaiting_field := some (pyIndexD info_fields 0) }
    else st
  let field := st.awaiting_field.getD ""
  match validate_and_store_field env st.candidate_data field user_input with
  | some cd' =>
    let ack_prompt := Prompt.acknowledgement user_input field
    let ack_msg := env.ai ack_prompt
    let idx' := st.current_field_index + 1
    if idx' ≥ info_fields.length then
      match transitionYears cd' with
      | none => .error "ValueError: invalid literal for int() with base 10"
      | some years =>
        let st' : ManagerState :=
          { st with
            candidate_data := cd'
            current_field_index := idx'
            awaiting_field := none
            state := .tech_transition }
        let tp := Prompt.transition (dgetD cd' "tech_stack" "") years
        .ok { st := st', message := ack_msg ++ "\n\n" ++ env.ai tp,
              finished := false, db_saves := [], archive := [],
              prompts := [ack_prompt, tp] }
    else
      let next_field := pyIndexD info_fields idx'
      let ip := Prompt.information_gathering next_field
      .ok { st := { st with
                    candidate_data := cd'
                    current_field_index := idx'
                    awaiting_field := some next_field },
            message := ack_msg ++ "\n\n" ++ env.ai ip, finished := false,
            db_saves := [], archive := [], prompts := [ack_prompt, ip] }
  | none =>
    let ep := Prompt.validation_error field
    .ok { st := st, message := env.ai ep, finished := false,
          db_saves := [], archive := [], prompts := [ep] }

/-- The generator invocation of `_handle_tech_transition`, with the inner
`int(self.candidate_data.get("experience_years", 0))` whose parse failure
is caught by the surrounding `try`. -/
def techTransitionGen (env : Env) (st : ManagerState) :
    Except String (List String) :=
  let tech_stack := dgetD st.candidate_data "tech_stack" ""
  match
    (match dget st.candidate_data "experience_years" with
     | none => some (0 : Int)
     | some v => pyInt v) with
  | none => .error "invalid literal for int() with base 10"
  | some years => generate_technical_questions env tech_stack years

/-- `_handle_tech_transition`. -/
def handle_tech_transition (env : Env) (st : ManagerState) : StepResult :=
  match techTransitionGen env st with
  | .error e =>
    let fp := Prompt.fallback e "generate technical questions"
    { st := st, message := env.ai fp, finished := false,
      db_saves := [], archive := [], prompts := [fp] }
  | .ok questions =>
    if questions.isEmpty then
      { st := { st with state := .ended },
        message := env.ai .end_conversation, finished := false,
        db_saves := [], archive := [], prompts := [.end_conversation] }
    else
      let st' : ManagerState :=
        { st with
          current_questions := questions
          current_question_index := 0
          state := .technical_questions }
      { st := st', message := questions.headD "", finished := false,
        db_saves := [], archive := [], prompts := [] }

/-- `_handle_technical_questions`. -/
def handle_technical_questions (env : Env) (st : ManagerState)
    (user_input : String) : StepResult :=
  if st.current_question_index < st.current_questions.length then
    let question_text :=
      (st.current_questions.get? st.current_question_index).getD ""
    let tr' :=
      dset st.technical_responses
        ("q_" ++ toString st.current_question_index)
        { question := question_text, answer := user_input }
    let ack_prompt := Prompt.acknowledgement user_input "technical question"
    let ack_text := env.ai ack_prompt
    let idx' := st.current_question_index + 1
    if idx' < st.current_questions.length then
      let next_q := (st.current_questions.get? idx').getD ""
      { st := { st with technical_responses := tr',
                        current_question_index := idx' },
        message := ack_text ++ "\n\n" ++ next_q, finished := false,
        db_saves := [], archive := [], prompts := [ack_prompt] }
    else
      { st := { st with technical_responses := tr',
                        current_question_index := idx',
                        state := .ended },
        message := env.ai .end_conversation, finished := false,
        db_saves := [], archive := [],
        prompts := [ack_prompt, .end_conversation] }
  else
    let fp := Prompt.fallback user_input "answer the current technical question"
    { st := st, message := env.ai fp, finished := false,
      db_saves := [], archive := [], prompts := [fp] }

/-- `_handle_graceful_exit`. -/
def handle_graceful_exit (env : Env) (st : ManagerState) : StepResult :=
  let saves := save_candidate_data env st
  { st := { st with state := .closed },
    message := env.ai .graceful_exit, finished := true,
    db_saves := saves.1, archive := saves.2, prompts := [.graceful_exit] }

/-- `process_message`: strip the input, apply the exit and reveal/unwanted
precedence checks, then dispatch on the state. -/
def process_message (env : Env) (st : ManagerState) (user_input : String) :
    Except String StepResult :=
  let user_input := pyStrip user_input
  if is_exit_keyword user_input then
    .ok (handle_graceful_exit env st)
  else if is_reveal_request user_input || is_unwanted_behavior user_input then
    let fp := Prompt.fallback user_input "continue our conversation"
    .ok { st := st, message := env.ai fp, finished := false,
          db_saves := [], archive := [], prompts := [fp] }
  else
    match st.state with
    | .greeting => .ok (handle_greeting env st)
    | .collecting_info => handle_info_collection env st user_input
    | .tech_transition => .ok (handle_tech_transition env st)
    | .technical_questions => .ok (handle_technical_questions env st user_input)
    | .ended =>
      .ok { st := st, message := env.ai .end_conversation, finished := false,
            db_saves := [], archive := [], prompts := [.end_conversation] }
    | .closed =>
      let fp := Prompt.fallback user_input "continue our conversation"
      .ok { st := st, message := env.ai fp, finished := false,
            db_saves := [], archive := [], prompts := [fp] }

/-- Accumulated observable outcome of a sequence of `process_message`
calls (final state, prompt trace, save attempts). -/
structure RunResult where
  st : ManagerState
  prompts : List Prompt
  db_saves : List (List (String × String) × List (String × QAEntry))
deriving DecidableEq, Repr

/-- Feed a list of utterances to the engine in order. -/
def run_messages (env : Env) (st : ManagerState) :
    List String → Except String RunResult
  | [] => .ok { st := st, prompts := [], db_saves := [] }
  | m :: ms =>
    match process_message env st m with
    | .error e => .error e
    | .ok r =>
      match run_messages env r.st ms with
      | .error e => .error e
      | .ok rr =>
        .ok { st := rr.st, prompts := r.prompts ++ rr.prompts,
              db_saves := r.db_saves ++ rr.db_saves }

instance {ε α : Type} [DecidableEq ε] [DecidableEq α] : DecidableEq (Except ε α) :=
  fun x y =>
    match x, y with
    | .error a, .error b =>
      if h : a = b then isTrue (congrArg Except.error h)
      else isFalse (fun hc => h (by cases hc; rfl))
    | .ok a, .ok b =>
      if h : a = b then isTrue (congrArg Except.ok h)
      else isFalse (fun hc => h (by cases hc; rfl))
    | .error _, .ok _ => isFalse (fun hc => by cases hc)
    | .ok _, .error _ => isFalse (fun hc => by cases hc)

/-- Exit keywords take precedence from every state. -/
theorem process_message_exit (env : Env) (st : ManagerState) (u : String)
    (h : is_exit_keyword (pyStrip u) = true) :
    process_message env st u = .ok (handle_graceful_exit env st) := by
  simp [process_message, h]

/-- Reveal requests and unwanted input short-circuit to the fallback. -/
theorem process_message_fallback_redirect (env : Env) (st : ManagerState)
    (u : String)
    (hex : is_exit_keyword (pyStrip u) = false)
    (hrv : (is_reveal_request (pyStrip u) || is_unwanted_behavior (pyStrip u)) = true) :
    process_message env st u =
      .ok { st := st,
            message := env.ai (.fallback (pyStrip u) "continue our conversation"),
            finished := false, db_saves := [], archive := [],
            prompts := [.fallback (pyStrip u) "continue our conversation"] } := by
  simp [process_message, hex, hrv]

/-- With both precedence guards false, `process_message` dispatches on the
state. -/
theorem process_message_dispatch (env : Env) (st : ManagerState) (u : String)
    (hex : is_exit_keyword (pyStrip u) = false)
    (hrv : (is_reveal_request (pyStrip u) || is_unwanted_behavior (pyStrip u)) = false) :
    process_message env st u =
      (match st.state with
       | .greeting => .ok (handle_greeting env st)
       | .collecting_info => handle_info_collection env st (pyStrip u)
       | .tech_transition => .ok (handle_tech_transition env st)
       | .technical_questions =>
         .ok (handle_technical_questions env st (pyStrip u))
       | .ended =>
         .ok { st := st, message := env.ai .end_conversation,
               finished := false, db_saves := [], archive := [],
               prompts := [.end_conversation] }
       | .closed =>
         .ok { st := st,
               message := env.ai (.fallback (pyStrip u) "continue our conversation"),
               finished := false, db_saves := [], archive := [],
               prompts := [.fallback (pyStrip u) "continue our conversation"] }) := by
  simp [process_message, hex, hrv]

/-- `_validate_and_store_field` on the email field with an accepting
verifier. -/
theorem validate_email_field (env : Env) (cd : List (String × String))
    (v : String) (h : env.validate_email (pyStrip v) = true) :
    validate_and_store_field env cd "email" v =
      some (dset cd "email" (pyStrip v)) := by
  simp [validate_and_store_field, h]

/-- `_validate_and_store_field` on the phone field with an accepting
verifier. -/
theorem validate_phone_field (env : Env) (cd : List (String × String))
    (v : String) (h : env.validate_phone (pyStrip v) = true) :
    validate_and_store_field env cd "phone_number" v =
      some (dset cd "phone_number" (pyStrip v)) := by
  simp [validate_and_store_field, h]

/-- `_validate_and_store_field` on the location field with an accepting
verifier. -/
theorem validate_location_field (env : Env) (cd : List (String × String))
    (v : String) (h : env.validate_location (pyStrip v) = true) :
    validate_and_store_field env cd "current_location" v =
      some (dset cd "current_location" (pyStrip v)) := by
  simp [validate_and_store_field, h]

/-- A successful mid-run field validation: the value is stored, the index
advances, the next field is requested. -/
theorem info_step_valid_mid (env : Env) (st : ManagerState) (u f : String)
    (cd' : List (String × String))
    (hex : is_exit_keyword (pyStrip u) = false)
    (hrv : (is_reveal_request (pyStrip u) || is_unwanted_behavior (pyStrip u)) = false)
    (hst : st.state = .collecting_info)
    (hf : st.awaiting_field = some f) (hfe : f ≠ "")
    (hv : validate_and_store_field env st.candidate_data f (pyStrip u) = some cd')
    (hlt : st.current_field_index + 1 < info_fields.length) :
    process_message env st u =
      .ok { st := { st with
                    candidate_data := cd'
                    current_field_index := st.current_field_index + 1
                    awaiting_field :=
                      some (pyIndexD info_fields (st.current_field_index + 1)) },
            message :=
              env.ai (.acknowledgement (pyStrip u) f) ++ "\n\n" ++
                env.ai (.information_gathering
                  (pyIndexD info_fields (st.current_field_index + 1))),
            finished := false, db_saves := [], archive := [],
            prompts :=
              [.acknowledgement (pyStrip u) f,
               .information_gathering
                 (pyIndexD info_fields (st.current_field_index + 1))] } := by
  rw [process_message_dispatch env st u hex hrv, hst]
  simp only [handle_info_collection, awaitingFalsy, hf, hfe, decide_eq_true_eq,
    if_neg hfe, if_false, Option.getD_some, hv]
  rw [if_neg (by omega)]
  rw [hst]

/-- A successful last-field validation: the value is stored and the state
moves to the technical transition. -/
theorem info_step_valid_last (env : Env) (st : ManagerState) (u f : String)
    (cd' : List (String × String)) (years : Int)
    (hex : is_exit_keyword (pyStrip u) = false)
    (hrv : (is_reveal_request (pyStrip u) || is_unwanted_behavior (pyStrip u)) = false)
    (hst : st.state = .collecting_info)
    (hf : st.awaiting_field = some f) (hfe : f ≠ "")
    (hv : validate_and_store_field env st.candidate_data f (pyStrip u) = some cd')
    (hge : st.current_field_index + 1 ≥ info_fields.length)
    (hy : transitionYears cd' = some years) :
    process_message env st u =
      .ok { st := { st with
                    candidate_data := cd'
                    current_field_index := st.current_field_index + 1
                    awaiting_field := none
                    state := .tech_transition },
            message :=
              env.ai (.acknowledgement (pyStrip u) f) ++ "\n\n" ++
                env.ai (.transition (dgetD cd' "tech_stack" "") years),
            finished := false, db_saves := [], archive := [],
            prompts :=
              [.acknowledgement (pyStrip u) f,
               .transition (dgetD cd' "tech_stack" "") years] } := by
  rw [process_message_dispatch env st u hex hrv, hst]
  simp only [handle_info_collection, awaitingFalsy, hf, hfe, decide_eq_true_eq,
    if_neg hfe, if_false, Option.getD_some, hv]
  rw [if_pos hge, hy]

/-- A failed field validation: validation-error prompt, nothing changes. -/
theorem info_step_invalid (env : Env) (st : ManagerState) (u f : String)
    (hex : is_exit_keyword (pyStrip u) = false)
    (hrv : (is_reveal_request (pyStrip u) || is_unwanted_behavior (pyStrip u)) = false)
    (hst : st.state = .collecting_info)
    (hf : st.awaiting_field = some f) (hfe : f ≠ "")
    (hv : validate_and_store_field env st.candidate_data f (pyStrip u) = none) :
    process_message env st u =
      .ok { st := st, message := env.ai (.validation_error f),
            finished := false, db_saves := [], archive := [],
            prompts := [.validation_error f] } := by
  rw [process_message_dispatch env st u hex hrv, hst]
  simp only [handle_info_collection, awaitingFalsy, hf, hfe, decide_eq_true_eq,
    if_neg hfe, if_false, Option.getD_some, hv]

/-- A fixed environment for concrete probes: verifiers accepting exactly
the well-formed sample values, a constant completion reply, a JSON-decode
failure for question generation, and the tag cipher. -/
def probeEnv : Env where
  validate_email s := s == "jane@example.com"
  validate_phone s := s == "+14155552671"
  validate_location s := s == "Austin, USA"
  ai _ := "ai-reply"
  completion_json _ := none
  cipher := tagCipher
  now := "2026-01-01T00:00:00"

/-- C3: for every nonempty string the decryption of its encryption returns
it; decryption of a tampered (Fernet-rejected) nonempty token raises the
typed invalid-ciphertext error; both directions map the empty string to
the empty string. -/
theorem C3_encrypt_decrypt_round_trip (c : FernetCipher) (hc : FernetContract c) :
    (∀ x, x ≠ "" →
      EncryptionManager.decrypt c (EncryptionManager.encrypt c x) = .ok x) ∧
    (∀ t, t ≠ "" → c.dec t = none →
      EncryptionManager.decrypt c t =
        .error "Invalid or corrupted encrypted text. Decryption failed.") ∧
    EncryptionManager.encrypt c "" = "" ∧
    EncryptionManager.decrypt c "" = .ok "" := by
  refine ⟨?_, ?_, by simp [EncryptionManager.encrypt],
    by simp [EncryptionManager.decrypt]⟩
  · intro x hx
    simp [EncryptionManager.encrypt, EncryptionManager.decrypt, hx,
      hc.token_ne_empty x, hc.round_trip x]
  · intro t ht hdec
    simp [EncryptionManager.decrypt, ht, hdec]

/-- C3 witness: the round trip and the empty-string laws at concrete
inputs of the tag cipher. -/
theorem C3_encrypt_decrypt_round_trip_witness :
    EncryptionManager.decrypt tagCipher
      (EncryptionManager.encrypt tagCipher "Hello, World!") = .ok "Hello, World!" ∧
    EncryptionManager.encrypt tagCipher "" = "" :=
  ⟨(C3_encrypt_decrypt_round_trip tagCipher tagCipher_contract).1
      "Hello, World!" (by decide),
   (C3_encrypt_decrypt_round_trip tagCipher tagCipher_contract).2.2.1⟩

/-- C4: every row written by save_candidate stores exactly email,
phone_number and current_location as ciphertexts of the encryption
service (hence never equal to a nonempty cleartext value), keeps the
remaining profile fields as given, and serializes the QA log into one
blob. -/
theorem C4_save_row_encrypts_only_sensitive (c : FernetCipher)
    (hc : FernetContract c) (now : String) (cd : List (String × String))
    (tr : List (String × QAEntry)) (row : CandidateRow)
    (hrow : DatabaseManager.save_candidate c now cd tr = .ok row) :
    row.email = EncryptionManager.encrypt c (dgetD cd "email" "") ∧
    row.phone_number = EncryptionManager.encrypt c (dgetD cd "phone_number" "") ∧
    row.current_location =
      EncryptionManager.encrypt c (dgetD cd "current_location" "") ∧
    (dgetD cd "email" "" ≠ "" → row.email ≠ dgetD cd "email" "") ∧
    (dgetD cd "phone_number" "" ≠ "" →
      row.phone_number ≠ dgetD cd "phone_number" "") ∧
    (dgetD cd "current_location" "" ≠ "" →
      row.current_location ≠ dgetD cd "current_location" "") ∧
    row.name = dgetD cd "name" "" ∧
    row.desired_positions = dgetD cd "desired_positions" "" ∧
    row.tech_stack = dgetD cd "tech_stack" "" ∧
    row.technical_responses_json = dumpsTechnicalResponses tr ∧
    row.date_time = now ∧
    saveYears cd = some row.experience_years := by
  cases hy : saveYears cd with
  | none => simp [DatabaseManager.save_candidate, hy] at hrow
  | some years =>
    simp only [DatabaseManager.save_candidate, hy, Except.ok.injEq] at hrow
    subst hrow
    refine ⟨rfl, rfl, rfl, ?_, ?_, ?_, rfl, rfl, rfl, rfl, rfl, ?_⟩
    · intro hne
      simp only [EncryptionManager.encrypt, if_neg hne]
      exact hc.token_ne_plain _ hne
    · intro hne
      simp only [EncryptionManager.encrypt, if_neg hne]
      exact hc.token_ne_plain _ hne
    · intro hne
      simp only [EncryptionManager.encrypt, if_neg hne]
      exact hc.token_ne_plain _ hne
    · rfl

/-- The profile used to witness C4. -/
def c4Profile : List (String × String) :=
  [("name", "John Doe"), ("email", "john.doe@example.com"),
   ("phone_number", "+1234567890"), ("current_location", "New York"),
   ("experience_years", "5"), ("desired_positions", "Senior Developer"),
   ("tech_stack", "Python, Django, React")]

/-- The QA log used to witness C4. -/
def c4Responses : List (String × QAEntry) :=
  [("q_0", { question := "Q1", answer := "A1" })]

/-- The row produced for the C4 witness profile. -/
def c4Row : CandidateRow where
  date_time := "2026-01-01T00:00:00"
  name := "John Doe"
  phone_number := EncryptionManager.encrypt tagCipher "+1234567890"
  email := EncryptionManager.encrypt tagCipher "john.doe@example.com"
  current_location := EncryptionManager.encrypt tagCipher "New York"
  experience_years := 5
  desired_positions := "Senior Developer"
  tech_stack := "Python, Django, React"
  technical_responses_json := dumpsTechnicalResponses c4Responses

/-- C4 witness: at a concrete profile the stored email slot differs from
the cleartext email. -/
theorem C4_save_row_encrypts_only_sensitive_witness :
    DatabaseManager.save_candidate tagCipher "2026-01-01T00:00:00" c4Profile
      c4Responses = .ok c4Row ∧
    c4Row.email ≠ "john.doe@example.com" := by
  have h := C4_save_row_encrypts_only_sensitive tagCipher tagCipher_contract
    "2026-01-01T00:00:00" c4Profile c4Responses c4Row rfl
  exact ⟨rfl, h.2.2.2.1 (by decide)⟩

/-- C1 counterexample: exiting a fresh session with a completely empty
profile and QA log performs zero save attempts, not exactly one, although
the exit message, Closed state and finished=true still occur. -/
theorem C1_empty_exit_skips_save :
    (process_message probeEnv initialManagerState "exit").map
      (fun r => (r.db_saves.length, r.finished, r.st.state)) ≠
      .ok (1, true, ConversationState.closed) ∧
    (process_message probeEnv initialManagerState "exit").map
      (fun r => (r.db_saves.length, r.finished, r.st.state)) =
      .ok (0, true, ConversationState.closed) := by
  exact ⟨by decide, rfl⟩

/-- C1 (amended): from every state, an utterance containing an exit
keyword emits the graceful-exit message, sets the state to Closed and
returns finished=true; `SecureRecordStore.save` is attempted exactly once
with the profile and QA data existing at that instant whenever at least
one of them is non-empty, and is skipped entirely when both are empty. -/
theorem C1_exit_saves_once_when_nonempty (env : Env) (st : ManagerState)
    (u : String) (h : is_exit_keyword (pyStrip u) = true) :
    ∃ r, process_message env st u = .ok r ∧
      r.st = { st with state := .closed } ∧
      r.message = env.ai .graceful_exit ∧
      r.finished = true ∧
      r.db_saves =
        (if st.candidate_data = [] ∧ st.technical_responses = [] then []
         else [(st.candidate_data, st.technical_responses)]) := by
  refine ⟨handle_graceful_exit env st, process_message_exit env st u h,
    rfl, rfl, rfl, ?_⟩
  by_cases hc : st.candidate_data = [] ∧ st.technical_responses = []
  · simp [handle_graceful_exit, save_candidate_data, hc]
  · simp [handle_graceful_exit, save_candidate_data, hc]

/-- A mid-interview session holding a partial profile, used to probe the
exit path. -/
def partialProfileSession : ManagerState :=
  { initialManagerState with
    state := .collecting_info
    candidate_data := [("name", "Jane Doe")]
    current_field_index := 1
    awaiting_field := some "email" }

/-- C1 witness: exiting mid-collection with a partial profile saves that
partial profile exactly once and closes the session. -/
theorem C1_exit_saves_once_when_nonempty_witness :
    (process_message probeEnv partialProfileSession "bye").map
      (fun r => (r.db_saves, r.finished, r.st.state)) =
      .ok ([([("name", "Jane Doe")], [])], true, ConversationState.closed) := by
  obtain ⟨r, hr, hst, _, hfin, hdb⟩ :=
    C1_exit_saves_once_when_nonempty probeEnv partialProfileSession "bye"
      (by decide)
  rw [hr, Except.map, hdb, hst, hfin]
  simp [partialProfileSession, initialManagerState]

/-- A session that has reached the terminal Closed state with an empty
profile. -/
def closedSession : ManagerState :=
  { initialManagerState with state := .closed }

/-- A Closed session still holding saved-profile data. -/
def closedSessionWithData : ManagerState :=
  { closedSession with candidate_data := [("name", "Jane Doe")] }

/-- C8 counterexample: in the Closed state an ordinary utterance returns
the fallback with finished=false (not true), and an exit utterance
re-attempts persistence (one more save), so further calls neither always
return finished=true nor avoid persistence. -/
theorem C8_closed_fallback_not_finished :
    (process_message probeEnv closedSession "hello").map
      (fun r => (r.finished, r.st.state, r.prompts)) =
      .ok (false, ConversationState.closed,
           [Prompt.fallback "hello" "continue our conversation"]) ∧
    (process_message probeEnv closedSessionWithData "exit").map
      (fun r => (r.db_saves.length, r.finished)) = .ok (1, true) := by
  exact ⟨rfl, rfl⟩

/-- C8 (amended): a Closed session stays Closed forever; an utterance
without an exit keyword leaves the whole session untouched and returns
the fallback template with finished=false and no persistence attempt,
while an utterance containing an exit keyword re-runs the exit flow:
finished=true, the graceful-exit message, and a renewed persistence
attempt whenever profile or QA data is non-empty. -/
theorem C8_closed_is_terminal (env : Env) (st : ManagerState) (u : String)
    (hst : st.state = .closed) :
    ∃ r, process_message env st u = .ok r ∧ r.st.state = .closed ∧
      (if is_exit_keyword (pyStrip u) = true then
        r.finished = true ∧ r.message = env.ai .graceful_exit ∧
        r.db_saves =
          (if st.candidate_data = [] ∧ st.technical_responses = [] then []
           else [(st.candidate_data, st.technical_responses)])
      else
        r = { st := st,
              message := env.ai (.fallback (pyStrip u) "continue our conversation"),
              finished := false, db_saves := [], archive := [],
              prompts := [.fallback (pyStrip u) "continue our conversation"] }) := by
  by_cases hex : is_exit_keyword (pyStrip u) = true
  · refine ⟨handle_graceful_exit env st, process_message_exit env st u hex,
      rfl, ?_⟩
    rw [if_pos hex]
    refine ⟨rfl, rfl, ?_⟩
    by_cases hc : st.candidate_data = [] ∧ st.technical_responses = []
    · simp [handle_graceful_exit, save_candidate_data, hc]
    · simp [handle_graceful_exit, save_candidate_data, hc]
  · have hex' : is_exit_keyword (pyStrip u) = false := by
      cases hb : is_exit_keyword (pyStrip u)
      · rfl
      · exact absurd hb hex
    by_cases hrv :
        (is_reveal_request (pyStrip u) || is_unwanted_behavior (pyStrip u)) = true
    · refine ⟨_, process_message_fallback_redirect env st u hex' hrv, ?_, ?_⟩
      · exact hst
      · rw [if_neg hex]
    · have hrv' :
          (is_reveal_request (pyStrip u) || is_unwanted_behavior (pyStrip u)) = false := by
        cases hb : (is_reveal_request (pyStrip u) || is_unwanted_behavior (pyStrip u))
        · rfl
        · exact absurd hb hrv
      refine
        ⟨{ st := st,
           message := env.ai (.fallback (pyStrip u) "continue our conversation"),
           finished := false, db_saves := [], archive := [],
           prompts := [.fallback (pyStrip u) "continue our conversation"] },
         ?_, ?_, ?_⟩
      · rw [process_message_dispatch env st u hex' hrv', hst]
      · exact hst
      · rw [if_neg hex]

/-- C8 witness: a Closed session fed an ordinary utterance stays Closed. -/
theorem C8_closed_is_terminal_witness :
    (process_message probeEnv closedSession "tell me more").map
      (fun r => r.st.state) = .ok ConversationState.closed := by
  obtain ⟨r, hr, hstate, _⟩ :=
    C8_closed_is_terminal probeEnv closedSession "tell me more" rfl
  rw [hr, Except.map, hstate]

/-- C10: from every state, an utterance without exit keywords that
`_is_reveal_request` flags (its lowercased text contains one of the reveal
substrings, for example a tech stack mentioning Keycloak) yields the
fallback redirect with finished=false, no save attempt, and a completely
unchanged session: state, profile, QA log and awaiting field all stay as
they were, so the answer is never stored and the conversation never
advances. -/
theorem C10_reveal_redirect_no_mutation (env : Env) (st : ManagerState)
    (u : String)
    (hex : is_exit_keyword (pyStrip u) = false)
    (hrv : is_reveal_request (pyStrip u) = true) :
    process_message env st u =
      .ok { st := st,
            message := env.ai (.fallback (pyStrip u) "continue our conversation"),
            finished := false, db_saves := [], archive := [],
            prompts := [.fallback (pyStrip u) "continue our conversation"] } :=
  process_message_fallback_redirect env st u hex (by simp [hrv])

/-- A session awaiting the tech-stack field, used to probe the reveal
filter against a legitimate answer containing the substring "key". -/
def awaitingTechStackSession : ManagerState :=
  { initialManagerState with
    state := .collecting_info
    candidate_data :=
      [("name", "Jane Doe"), ("email", "jane@example.com"),
       ("phone_number", "+14155552671"), ("current_location", "Austin, USA"),
       ("experience_years", "3"), ("desired_positions", "ML Engineer")]
    current_field_index := 6
    awaiting_field := some "tech_stack" }

/-- C10 witness: the legitimate tech-stack answer "Python, Keycloak" is
redirected and not stored. -/
theorem C10_reveal_redirect_no_mutation_witness :
    process_message probeEnv awaitingTechStackSession "Python, Keycloak" =
      .ok { st := awaitingTechStackSession,
            message := probeEnv.ai (.fallback "Python, Keycloak" "continue our conversation"),
            finished := false, db_saves := [], archive := [],
            prompts := [.fallback "Python, Keycloak" "continue our conversation"] } :=
  C10_reveal_redirect_no_mutation probeEnv awaitingTechStackSession
    "Python, Keycloak" (by decide) (by decide)

/-- An environment whose completion service replies to question generation
with a JSON array of three empty strings. -/
def emptyQuestionsEnv : Env :=
  { probeEnv with
    completion_json := fun _ =>
      some (Json.arr [Json.str "", Json.str "", Json.str ""]) }

/-- C5 counterexample: a completion reply of three empty strings is
accepted and returned as-is, so the generator does not guarantee non-empty
questions. -/
theorem C5_accepts_empty_question_strings :
    generate_technical_questions emptyQuestionsEnv "Python, PostgreSQL" 3 =
      .ok ["", "", ""] ∧
    ¬ (["", "", ""].all (fun q => !q.isEmpty) = true) :=
  ⟨rfl, by decide⟩

/-- C5 (amended): for every input the question generator either raises a
typed generation error or returns a list of between 3 and 5 strings —
never 0, 1, 2 or more than 5 items — but the strings themselves are not
checked for non-emptiness. -/
theorem C5_generator_count_bounds (env : Env) (tech_stack : String)
    (experience_years : Int) :
    (∃ e, generate_technical_questions env tech_stack experience_years =
      .error e) ∨
    (∃ qs, generate_technical_questions env tech_stack experience_years =
      .ok qs ∧ 3 ≤ qs.length ∧ qs.length ≤ 5) := by
  unfold generate_technical_questions
  cases hcj : env.completion_json (Prompt.question_generation tech_stack experience_years) with
  | none =>
    exact .inl ⟨"Failed to parse LLM output as JSON", by simp [hcj]⟩
  | some j =>
    cases hj : j.asStringArray with
    | none =>
      exact .inl
        ⟨"LLM response was not a JSON array of strings.", by simp [hcj, hj]⟩
    | some qs =>
      by_cases hb : 3 ≤ qs.length ∧ qs.length ≤ 5
      · exact .inr ⟨qs, by simp [hcj, hj, hb], hb.1, hb.2⟩
      · exact .inl
          ⟨"LLM did not return 3-5 questions as required.",
           by simp [hcj, hj, hb]⟩

/-- A session that has just finished info collection and sits in
TechTransition. -/
def techTransitionSession : ManagerState :=
  { initialManagerState with
    state := .tech_transition
    candidate_data :=
      [("name", "Jane Doe"), ("email", "jane@example.com"),
       ("phone_number", "+14155552671"), ("current_location", "Austin, USA"),
       ("experience_years", "3"), ("desired_positions", "ML Engineer"),
       ("tech_stack", "Python, PostgreSQL")]
    current_field_index := 7 }

/-- C6 counterexample: when question generation raises (here a JSON parse
failure), the engine emits the fallback prompt and stays in
TechTransition — the state is not set to Ended and no end-of-session text
is emitted. -/
theorem C6_generation_error_not_ended :
    (handle_tech_transition probeEnv techTransitionSession).st.state =
      .tech_transition ∧
    (handle_tech_transition probeEnv techTransitionSession).st.state ≠
      .ended ∧
    (handle_tech_transition probeEnv techTransitionSession).prompts =
      [Prompt.fallback "Failed to parse LLM output as JSON"
        "generate technical questions"] :=
  ⟨rfl, by decide, rfl⟩

/-- C6 (amended): in TechTransition a question-generation error makes the
engine emit a fallback message and leave the session unchanged (still in
TechTransition, finished=false, no persistence), so no technical-question
phase is entered on that turn; only the empty-result branch — which the
generator, raising on any count outside [3,5], never produces — would set
state = Ended with end-of-session text. -/
theorem C6_generation_error_fallback (env : Env) (st : ManagerState)
    (e : String) (hgen : techTransitionGen env st = .error e) :
    handle_tech_transition env st =
      { st := st, message := env.ai (.fallback e "generate technical questions"),
        finished := false, db_saves := [], archive := [],
        prompts := [.fallback e "generate technical questions"] } := by
  simp [handle_tech_transition, hgen]

/-- C6 witness: the fallback path at the concrete failing environment. -/
theorem C6_generation_error_fallback_witness :
    handle_tech_transition probeEnv techTransitionSession =
      { st := techTransitionSession,
        message :=
          probeEnv.ai
            (.fallback "Failed to parse LLM output as JSON"
              "generate technical questions"),
        finished := false, db_saves := [], archive := [],
        prompts :=
          [.fallback "Failed to parse LLM output as JSON"
            "generate technical questions"] } :=
  C6_generation_error_fallback probeEnv techTransitionSession
    "Failed to parse LLM output as JSON" rfl

/-- A session on the last of three technical questions. -/
def lastQuestionSession : ManagerState :=
  { techTransitionSession with
    state := .technical_questions
    current_questions := ["Q1", "Q2", "Q3"]
    current_question_index := 2
    technical_responses :=
      [("q_0", { question := "Q1", answer := "A1" }),
       ("q_1", { question := "Q2", answer := "A2" })] }

/-- C7 counterexample: answering the last technical question sets the
state to Ended and emits the end-of-session prompt, but performs zero
persistence attempts. -/
theorem C7_exhausted_no_persistence :
    (process_message probeEnv lastQuestionSession "42").map
      (fun r => (r.st.state, r.db_saves.length, r.prompts)) =
      .ok (ConversationState.ended, 0,
           [Prompt.acknowledgement "42" "technical question",
            Prompt.end_conversation]) := rfl

/-- C7 (amended): when the answer to the last remaining question is
recorded, the engine sets state = Ended and emits the end-of-session
text, but it does not attempt persistence — no save call is made on this
path; data is persisted only by the exit-keyword flow. -/
theorem C7_exhausted_ends_without_save (env : Env) (st : ManagerState)
    (u : String)
    (hq : st.current_question_index < st.current_questions.length)
    (hlast : st.current_question_index + 1 = st.current_questions.length) :
    handle_technical_questions env st u =
      { st := { st with
                technical_responses :=
                  dset st.technical_responses
                    ("q_" ++ toString st.current_question_index)
                    { question :=
                        (st.current_questions.get?
                          st.current_question_index).getD ""
                      answer := u }
                current_question_index := st.current_question_index + 1
                state := .ended },
        message := env.ai .end_conversation, finished := false,
        db_saves := [], archive := [],
        prompts := [.acknowledgement u "technical question",
                    .end_conversation] } := by
  simp only [handle_technical_questions, if_pos hq]
  rw [if_neg (by omega)]

/-- C7 witness: the last-question path at a concrete session records the
answer, ends the session and makes no save attempt. -/
theorem C7_exhausted_ends_without_save_witness :
    (handle_technical_questions probeEnv lastQuestionSession "42").db_saves =
      [] ∧
    (handle_technical_questions probeEnv lastQuestionSession "42").st.state =
      .ended := by
  rw [C7_exhausted_ends_without_save probeEnv lastQuestionSession "42"
    (by decide) (by decide)]
  exact ⟨rfl, rfl⟩

/-- Looking up the key just set returns the new value. -/
theorem dget_dset_self {α : Type} :
    ∀ (d : List (String × α)) (k : String) (v : α),
      dget (dset d k v) k = some v
  | [], k, v => by simp [dset, dget]
  | (k', v') :: rest, k, v => by
    by_cases h : k' = k
    · simp [dset, h, dget]
    · simp [dset, h, dget, dget_dset_self rest k v]

/-- Setting one key leaves every other key unchanged. -/
theorem dget_dset_other {α : Type} :
    ∀ (d : List (String × α)) (k k₂ : String) (v : α), k₂ ≠ k →
      dget (dset d k v) k₂ = dget d k₂
  | [], k, k₂, v, hne => by simp [dset, dget, Ne.symm hne]
  | (k', v') :: rest, k, k₂, v, hne => by
    by_cases h : k' = k
    · subst h
      simp [dset, dget, Ne.symm hne]
    · simp only [dset, if_neg h, dget]
      by_cases h2 : k' = k₂
      · simp [h2]
      · simp [h2, dget_dset_other rest k k₂ v hne]

/-- A successful `_validate_and_store_field` call writes exactly the given
field (with the sanitized value) into the dict. -/
theorem validate_store_shape (env : Env) (cd : List (String × String))
    (f v : String) (cd' : List (String × String))
    (hv : validate_and_store_field env cd f v = some cd') :
    ∃ w, cd' = dset cd f w := by
  by_cases h1 : f = "email"
  · subst h1
    cases hb : env.validate_email (pyStrip v) <;>
      simp [validate_and_store_field, hb] at hv
    exact ⟨pyStrip v, hv.symm⟩
  by_cases h2 : f = "phone_number"
  · subst h2
    cases hb : env.validate_phone (pyStrip v) <;>
      simp [validate_and_store_field, hb] at hv
    exact ⟨pyStrip v, hv.symm⟩
  by_cases h3 : f = "current_location"
  · subst h3
    cases hb : env.validate_location (pyStrip v) <;>
      simp [validate_and_store_field, hb] at hv
    exact ⟨pyStrip v, hv.symm⟩
  by_cases h4 : f = "experience_years"
  · subst h4
    cases hy : pyInt (pyStrip v) with
    | none => simp [validate_and_store_field, hy] at hv
    | some years =>
      by_cases hr : 0 ≤ years ∧ years ≤ 50
      · simp [validate_and_store_field, hy, hr] at hv
        exact ⟨toString years, hv.symm⟩
      · simp [validate_and_store_field, hy, hr] at hv
  · by_cases he : pyStrip v = ""
    · simp [validate_and_store_field, h1, h2, h3, h4, he] at hv
    · simp [validate_and_store_field, h1, h2, h3, h4, he] at hv
      exact ⟨pyStrip v, hv.symm⟩

/-- C9: in CollectingInfo (with the engine's index/awaiting-field
invariant and a non-exit, non-reveal, non-empty utterance), a validation
failure leaves the profile and the awaiting field untouched and re-emits
the validation-error prompt, while a validation success writes exactly
the awaiting field (every other key unchanged), advances the index by
one, and moves the awaiting field to the next field in order — or into
the technical transition when the fields are exhausted. -/
theorem C9_collecting_info_frame (env : Env) (st : ManagerState)
    (u f : String)
    (hex : is_exit_keyword (pyStrip u) = false)
    (hrv : (is_reveal_request (pyStrip u) || is_unwanted_behavior (pyStrip u)) = false)
    (hst : st.state = .collecting_info)
    (hf : st.awaiting_field = some f) (hfe : f ≠ "")
    (_hidx : pyIndexD info_fields st.current_field_index = f) :
    (validate_and_store_field env st.candidate_data f (pyStrip u) = none →
      process_message env st u =
        .ok { st := st, message := env.ai (.validation_error f),
              finished := false, db_saves := [], archive := [],
              prompts := [.validation_error f] }) ∧
    (∀ cd', validate_and_store_field env st.candidate_data f (pyStrip u) = some cd' →
      (dget cd' f).isSome ∧
      (∀ k, k ≠ f → dget cd' k = dget st.candidate_data k) ∧
      (st.current_field_index + 1 < info_fields.length →
        process_message env st u =
          .ok { st := { st with
                        candidate_data := cd'
                        current_field_index := st.current_field_index + 1
                        awaiting_field :=
                          some (pyIndexD info_fields (st.current_field_index + 1)) },
                message :=
                  env.ai (.acknowledgement (pyStrip u) f) ++ "\n\n" ++
                    env.ai (.information_gathering
                      (pyIndexD info_fields (st.current_field_index + 1))),
                finished := false, db_saves := [], archive := [],
                prompts :=
                  [.acknowledgement (pyStrip u) f,
                   .information_gathering
                     (pyIndexD info_fields (st.current_field_index + 1))] }) ∧
      (st.current_field_index + 1 ≥ info_fields.length →
        ∀ years, transitionYears cd' = some years →
          process_message env st u =
            .ok { st := { st with
                          candidate_data := cd'
                          current_field_index := st.current_field_index + 1
                          awaiting_field := none
                          state := .tech_transition },
                  message :=
                    env.ai (.acknowledgement (pyStrip u) f) ++ "\n\n" ++
                      env.ai (.transition (dgetD cd' "tech_stack" "") years),
                  finished := false, db_saves := [], archive := [],
                  prompts :=
                    [.acknowledgement (pyStrip u) f,
                     .transition (dgetD cd' "tech_stack" "") years] })) := by
  constructor
  · intro hv
    exact info_step_invalid env st u f hex hrv hst hf hfe hv
  · intro cd' hv
    obtain ⟨w, hw⟩ := validate_store_shape env st.candidate_data f (pyStrip u) cd' hv
    refine ⟨?_, ?_, ?_, ?_⟩
    · rw [hw, dget_dset_self]
      rfl
    · intro k hk
      rw [hw, dget_dset_other st.candidate_data f k w hk]
    · intro hlt
      exact info_step_valid_mid env st u f cd' hex hrv hst hf hfe hv hlt
    · intro hge years hy
      exact info_step_valid_last env st u f cd' years hex hrv hst hf hfe hv hge hy

/-- C9 witness: a rejected email answer leaves the session untouched and
re-emits the validation-error prompt. -/
theorem C9_collecting_info_frame_witness :
    process_message probeEnv partialProfileSession "not-an-email" =
      .ok { st := partialProfileSession,
            message := probeEnv.ai (.validation_error "email"),
            finished := false, db_saves := [], archive := [],
            prompts := [.validation_error "email"] } :=
  (C9_collecting_info_frame probeEnv partialProfileSession "not-an-email"
      "email" (by decide) (by decide) rfl rfl (by decide) (by decide)).1
    (by decide)

/-- Unfold one step of `run_messages` from known step results. -/
theorem run_messages_cons_ok (env : Env) (st : ManagerState) (m : String)
    (ms : List String) (r : StepResult) (rr : RunResult)
    (h1 : process_message env st m = .ok r)
    (h2 : run_messages env r.st ms = .ok rr) :
    run_messages env st (m :: ms) =
      .ok { st := rr.st, prompts := r.prompts ++ rr.prompts,
            db_saves := r.db_saves ++ rr.db_saves } := by
  simp [run_messages, h1, h2]

/-- The utterance sequence of the end-to-end scenario, with a greeting
opener and an exit-keyword-free position title. -/
def c2Messages : List String :=
  ["hi", "Jane Doe", "jane@example.com", "+14155552671", "Austin, USA", "3",
   "ML Engineer", "Python, PostgreSQL"]

/-- The profile collected by the end-to-end scenario. -/
def c2Profile : List (String × String) :=
  [("name", "Jane Doe"), ("email", "jane@example.com"),
   ("phone_number", "+14155552671"), ("current_location", "Austin, USA"),
   ("experience_years", "3"), ("desired_positions", "ML Engineer"),
   ("tech_stack", "Python, PostgreSQL")]

/-- The session at the end of the end-to-end scenario. -/
def c2FinalState : ManagerState where
  state := .tech_transition
  candidate_data := c2Profile
  technical_responses := []
  current_questions := []
  current_question_index := 0
  current_field_index := 7
  awaiting_field := none

/-- A mid-collection session of the end-to-end scenario. -/
def c2State (n : Nat) (cd : List (String × String)) (aw : Option String) :
    ManagerState where
  state := .collecting_info
  candidate_data := cd
  technical_responses := []
  current_questions := []
  current_question_index := 0
  current_field_index := n
  awaiting_field := aw

/-- The prompt trace of the end-to-end scenario. -/
def c2Prompts : List Prompt :=
  [.greeting,
   .acknowledgement "Jane Doe" "name", .information_gathering "email",
   .acknowledgement "jane@example.com" "email",
   .information_gathering "phone_number",
   .acknowledgement "+14155552671" "phone_number",
   .information_gathering "current_location",
   .acknowledgement "Austin, USA" "current_location",
   .information_gathering "experience_years",
   .acknowledgement "3" "experience_years",
   .information_gathering "desired_positions",
   .acknowledgement "ML Engineer" "desired_positions",
   .information_gathering "tech_stack",
   .acknowledgement "Python, PostgreSQL" "tech_stack",
   .transition "Python, PostgreSQL" 3]

/-- C2 counterexample: the seven utterances of the claim, fed to a fresh
session whose verifiers accept exactly the well-formed values. The first
utterance is consumed by the greeting, so "jane@example.com" lands in the
name field; later "Backend Engineer" matches the exit keyword "end" as a
substring and closes the session. The run ends Closed (never reaching
TechTransition) with a wrong profile and three validation errors. -/
theorem C2_seven_utterances_counterexample :
    (run_messages probeEnv initialManagerState
      ["Jane Doe", "jane@example.com", "+14155552671", "Austin, USA", "3",
       "Backend Engineer", "Python, PostgreSQL"]).map
      (fun r => (r.st.state, dget r.st.candidate_data "name",
                 dget r.st.candidate_data "tech_stack",
                 r.prompts.countP (fun p =>
                   match p with
                   | .validation_error _ => true
                   | _ => false))) =
      .ok (ConversationState.closed, some "jane@example.com", none, 3) := rfl

/-- C2 (amended): prefixed with one greeting-consumed opener and with a
position title free of exit-keyword substrings, the eight utterances
["hi", "Jane Doe", "jane@example.com", "+14155552671", "Austin, USA",
"3", "ML Engineer", "Python, PostgreSQL"] drive a fresh engine (whose
validators accept the well-formed values) from Greeting through
CollectingInfo into TechTransition, storing exactly the seven field
values with zero validation errors and no save attempts. -/
theorem C2_eight_utterances_end_to_end (env : Env)
    (h1 : env.validate_email "jane@example.com" = true)
    (h2 : env.validate_phone "+14155552671" = true)
    (h3 : env.validate_location "Austin, USA" = true) :
    run_messages env initialManagerState c2Messages =
      .ok { st := c2FinalState, prompts := c2Prompts, db_saves := [] } ∧
    c2Prompts.countP (fun p =>
      match p with
      | .validation_error _ => true
      | _ => false) = 0 := by
  refine ⟨?_, by decide⟩
  have s1 : process_message env initialManagerState "hi" =
      .ok { st := c2State 0 [] (some "name"), message := env.ai .greeting,
            finished := false, db_saves := [], archive := [],
            prompts := [.greeting] } := rfl
  have s2 : process_message env (c2State 0 [] (some "name")) "Jane Doe" =
      .ok { st := c2State 1 [("name", "Jane Doe")] (some "email"),
            message :=
              env.ai (.acknowledgement "Jane Doe" "name") ++ "\n\n" ++
                env.ai (.information_gathering "email"),
            finished := false, db_saves := [], archive := [],
            prompts := [.acknowledgement "Jane Doe" "name",
                        .information_gathering "email"] } := rfl
  have s3 : process_message env (c2State 1 [("name", "Jane Doe")] (some "email"))
        "jane@example.com" =
      .ok { st := c2State 2
              [("name", "Jane Doe"), ("email", "jane@example.com")]
              (some "phone_number"),
            message :=
              env.ai (.acknowledgement "jane@example.com" "email") ++ "\n\n" ++
                env.ai (.information_gathering "phone_number"),
            finished := false, db_saves := [], archive := [],
            prompts := [.acknowledgement "jane@example.com" "email",
                        .information_gathering "phone_number"] } :=
    info_step_valid_mid env (c2State 1 [("name", "Jane Doe")] (some "email"))
      "jane@example.com" "email"
      [("name", "Jane Doe"), ("email", "jane@example.com")]
      (by decide) (by decide) rfl rfl (by decide)
      (validate_email_field env [("name", "Jane Doe")]
        (pyStrip "jane@example.com") h1)
      (by decide)
  have s4 : process_message env
        (c2State 2 [("name", "Jane Doe"), ("email", "jane@example.com")]
          (some "phone_number")) "+14155552671" =
      .ok { st := c2State 3
              [("name", "Jane Doe"), ("email", "jane@example.com"),
               ("phone_number", "+14155552671")]
              (some "current_location"),
            message :=
              env.ai (.acknowledgement "+14155552671" "phone_number") ++
                "\n\n" ++ env.ai (.information_gathering "current_location"),
            finished := false, db_saves := [], archive := [],
            prompts := [.acknowledgement "+14155552671" "phone_number",
                        .information_gathering "current_location"] } :=
    info_step_valid_mid env
      (c2State 2 [("name", "Jane Doe"), ("email", "jane@example.com")]
        (some "phone_number"))
      "+14155552671" "phone_number"
      [("name", "Jane Doe"), ("email", "jane@example.com"),
       ("phone_number", "+14155552671")]
      (by decide) (by decide) rfl rfl (by decide)
      (validate_phone_field env
        [("name", "Jane Doe"), ("email", "jane@example.com")]
        (pyStrip "+14155552671") h2)
      (by decide)
  have s5 : process_message env
        (c2State 3
          [("name", "Jane Doe"), ("email", "jane@example.com"),
           ("phone_number", "+14155552671")]
          (some "current_location")) "Austin, USA" =
      .ok { st := c2State 4
              [("name", "Jane Doe"), ("email", "jane@example.com"),
               ("phone_number", "+14155552671"),
               ("current_location", "Austin, USA")]
              (some "experience_years"),
            message :=
              env.ai (.acknowledgement "Austin, USA" "current_location") ++
                "\n\n" ++ env.ai (.information_gathering "experience_years"),
            finished := false, db_saves := [], archive := [],
            prompts := [.acknowledgement "Austin, USA" "current_location",
                        .information_gathering "experience_years"] } :=
    info_step_valid_mid env
      (c2State 3
        [("name", "Jane Doe"), ("email", "jane@example.com"),
         ("phone_number", "+14155552671")]
        (some "current_location"))
      "Austin, USA" "current_location"
      [("name", "Jane Doe"), ("email", "jane@example.com"),
       ("phone_number", "+14155552671"), ("current_location", "Austin, USA")]
      (by decide) (by decide) rfl rfl (by decide)
      (validate_location_field env
        [("name", "Jane Doe"), ("email", "jane@example.com"),
         ("phone_number", "+14155552671")]
        (pyStrip "Austin, USA") h3)
      (by decide)
  have s6 : process_message env
        (c2State 4
          [("name", "Jane Doe"), ("email", "jane@example.com"),
           ("phone_number", "+14155552671"),
           ("current_location", "Austin, USA")]
          (some "experience_years")) "3" =
      .ok { st := c2State 5
              [("name", "Jane Doe"), ("email", "jane@example.com"),
               ("phone_number", "+14155552671"),
               ("current_location", "Austin, USA"),
               ("experience_years", "3")]
              (some "desired_positions"),
            message :=
              env.ai (.acknowledgement "3" "experience_years") ++ "\n\n" ++
                env.ai (.information_gathering "desired_positions"),
            finished := false, db_saves := [], archive := [],
            prompts := [.acknowledgement "3" "experience_years",
                        .information_gathering "desired_positions"] } := rfl
  have s7 : process_message env
        (c2State 5
          [("name", "Jane Doe"), ("email", "jane@example.com"),
           ("phone_number", "+14155552671"),
           ("current_location", "Austin, USA"), ("experience_years", "3")]
          (some "desired_positions")) "ML Engineer" =
      .ok { st := c2State 6
              [("name", "Jane Doe"), ("email", "jane@example.com"),
               ("phone_number", "+14155552671"),
               ("current_location", "Austin, USA"),
               ("experience_years", "3"), ("desired_positions", "ML Engineer")]
              (some "tech_stack"),
            message :=
              env.ai (.acknowledgement "ML Engineer" "desired_positions") ++
                "\n\n" ++ env.ai (.information_gathering "tech_stack"),
            finished := false, db_saves := [], archive := [],
            prompts := [.acknowledgement "ML Engineer" "desired_positions",
                        .information_gathering "tech_stack"] } := rfl
  have s8 : process_message env
        (c2State 6
          [("name", "Jane Doe"), ("email", "jane@example.com"),
           ("phone_number", "+14155552671"),
           ("current_location", "Austin, USA"), ("experience_years", "3"),
           ("desired_positions", "ML Engineer")]
          (some "tech_stack")) "Python, PostgreSQL" =
      .ok { st := c2FinalState,
            message :=
              env.ai (.acknowledgement "Python, PostgreSQL" "tech_stack") ++
                "\n\n" ++ env.ai (.transition "Python, PostgreSQL" 3),
            finished := false, db_saves := [], archive := [],
            prompts := [.acknowledgement "Python, PostgreSQL" "tech_stack",
                        .transition "Python, PostgreSQL" 3] } := rfl
  have R8 : run_messages env c2FinalState [] =
      .ok { st := c2FinalState, prompts := [], db_saves := [] } := rfl
  have R7 := run_messages_cons_ok env _ _ _ _ _ s8 R8
  have R6 := run_messages_cons_ok env _ _ _ _ _ s7 R7
  have R5 := run_messages_cons_ok env _ _ _ _ _ s6 R6
  have R4 := run_messages_cons_ok env _ _ _ _ _ s5 R5
  have R3 := run_messages_cons_ok env _ _ _ _ _ s4 R4
  have R2 := run_messages_cons_ok env _ _ _ _ _ s3 R3
  have R1 := run_messages_cons_ok env _ _ _ _ _ s2 R2
  have R0 := run_messages_cons_ok env _ _ _ _ _ s1 R1
  exact R0

/-- C2 witness: the amended end-to-end run at the probe environment. -/
theorem C2_eight_utterances_end_to_end_witness :
    run_messages probeEnv initialManagerState c2Messages =
      .ok { st := c2FinalState, prompts := c2Prompts, db_saves := [] } :=
  (C2_eight_utterances_end_to_end probeEnv rfl rfl rfl).1

end HiringAssistant
